import Mathlib

/-!
Shallow embedding of the PowerGrid viewport windowing engine
(`src/unnamed/part_000`) and of the summarizing data source
(`src/web/datasources/summarizingdatasource.js`).

Modelling conventions:
* Row indices and record counts are JS numbers used as integers; they are
  modelled with `Int`.  The JS remainder operator `%` truncates toward zero
  and is modelled with `Int.tmod`.
* The rendering surface is modelled as the ordered list of row nodes of one
  part of the scrolling row group (`.pg-rowgroup.pg-scrolling > .pg-container`).
  The middle part always exists, and the up to three parts of the group are
  kept in lockstep by the source, so a single list suffices.  A row node
  carries its `data-row-idx` attribute, its optional `data-row-id` attribute
  and whether cell content has been rendered into it.
* Only synchronous data sources are modelled: `dataSource.getData` returns
  its records immediately.  The response of the external data source is
  modelled as a function `data : Int → Record` from dataset index to record.
* `created` / `destroyed` are cumulative counters of row-node creations and
  removals; they make the DOM churn of an operation observable.
* Remnant jQuery-style DOM calls in the source (`find`, `each`, `slice` on
  query results, `:eq`/`:gt` selectors) are modelled by their evident
  query/iteration semantics; arithmetic is modelled exactly as written.
-/

/-- A record handed out by the data source; the engine only ever reads its
stable identifier (`record.id`). -/
structure Record where
  id : Int
deriving DecidableEq

/-- A half-open row-index range `{begin, end}` (field names `begin`/`end` are
Lean keywords, hence `rbegin`/`rend`). -/
structure RowRange where
  rbegin : Int
  rend : Int
deriving DecidableEq

/-- One rendered row part: its `data-row-idx` attribute, its `data-row-id`
attribute (present once the row has been populated from a record) and whether
cell content has been rendered into it (`renderRowToParts` ran). -/
structure RowNode where
  idx : Int
  rowId : Option Int
  hasCells : Bool
deriving DecidableEq

/-- The grid options the windowing engine reads (`defaultOptions`, lines 24-32).
`rowHeight` is the constant per-row height of the base implementation
(lines 1555-1562). -/
structure GridOptions where
  frozenRowsTop : Int
  frozenRowsBottom : Int
  virtualScrollingExcess : Int
  rowHeight : Int
deriving DecidableEq

/-- The engine state the claims are about: the known record count, the
materialized viewport, the working set (sparse array of loaded records,
line 599), the row nodes of the scrolling group, and churn counters. -/
structure GridState where
  recordCount : Int
  viewport : RowRange
  workingSet : Int → Option Record
  rows : List RowNode
  created : Nat
  destroyed : Nat

/-- Modelled from the spec: `utils.overlap` lives in `utils.js`, which is not
among the sources.  Per the spec two half-open ranges overlap when their
intersection is non-empty ("if `newRange` overlaps the previous viewport,
adds only the leading/trailing non-overlapping slices"). -/
def overlap (a b : RowRange) : Bool :=
  max a.rbegin b.rbegin < min a.rend b.rend

/-- Working-set effect of `PowerGrid.getData` (lines 655-681): entries for
`[a, b)` are created and, the data source being synchronous, immediately
filled with the fetched records. -/
def loadData (data : Int → Record) (a b : Int) (ws : Int → Option Record) :
    Int → Option Record :=
  fun i => if a ≤ i ∧ i < b then some (data i) else ws i

/-- `PowerGrid._incrementRowIndexes` (lines 1065-1072): every rendered row
whose `data-row-idx` attribute is at least `a` has it incremented by
`offset`. -/
def incrementRowIndexes (a offset : Int) (rows : List RowNode) : List RowNode :=
  rows.map fun r => if a ≤ r.idx then { r with idx := r.idx + offset } else r

/-- Insertion position of freshly rendered rows inside a row-group part,
the four jQuery methods of line 770. -/
inductive InsertPos where
  | front
  | back
  | beforeAt (i : Int)
  | afterAt (i : Int)
deriving DecidableEq

/-- Method selection of `renderRowGroupContents` (lines 764-770), including
the `atIndex == -1 && !prepend` special case. -/
def methodOf (prepend : Bool) (atIndex : Option Int) : InsertPos :=
  match atIndex with
  | none => if prepend then .front else .back
  | some i =>
    if i = -1 ∧ prepend = false then .front
    else if prepend then .beforeAt i else .afterAt i

/-- Insert `newRows` into `rows` at the given position (`prepend`/`append`
on the container, `before`/`after` on the row at child position `i`). -/
def insertRows (pos : InsertPos) (newRows rows : List RowNode) : List RowNode :=
  match pos with
  | .front => newRows ++ rows
  | .back => rows ++ newRows
  | .beforeAt i => rows.take i.toNat ++ newRows ++ rows.drop i.toNat
  | .afterAt i => rows.take (i + 1).toNat ++ newRows ++ rows.drop (i + 1).toNat

/-- The row-node shells built by `renderRowGroupContents` for `[a, b)`
(lines 789-841): every shell gets its `data-row-idx` attribute; `populateRows`
(lines 813-832) then renders cells and sets `data-row-id`, but only for the
sub-range intersecting the live viewport — unless the range lies within the
frozen top/bottom rows, in which case it is populated in full (line 814-815).
`rc` and `vp` are the record count and viewport at the time of the call. -/
def builtRows (o : GridOptions) (data : Int → Record) (rc : Int) (vp : RowRange)
    (a b : Int) : List RowNode :=
  let frozenRange := b ≤ o.frozenRowsTop ∨ rc - o.frozenRowsBottom ≤ a
  let popLo := if frozenRange then a else max a vp.rbegin
  let popHi := if frozenRange then b else min b vp.rend
  (List.range (b - a).toNat).map fun (k : Nat) =>
    let x := a + (k : Int)
    if popLo ≤ x ∧ x < popHi then ⟨x, some (data x).id, true⟩ else ⟨x, none, false⟩

/-- `PowerGrid.renderRowGroupContents` (lines 761-846) for the scrolling
group: fetches data for `[a, b)` into the working set (via `getData`, whose
lower bound is clamped by `start < 0 ? 0 : start`, line 788), builds the row
shells, lazily populates only the viewport intersection, and inserts the new
row parts at the requested position. -/
def renderRowGroupContents (o : GridOptions) (data : Int → Record) (a b : Int)
    (prepend : Bool) (atIndex : Option Int) (s : GridState) : GridState :=
  let newRows := builtRows o data s.recordCount s.viewport a b
  { s with
    workingSet := loadData data (if a < 0 then 0 else a) b s.workingSet
    rows := insertRows (methodOf prepend atIndex) newRows s.rows
    created := s.created + newRows.length }

/-- `PowerGrid.setViewport` (lines 1215-1269).  `this.previousViewport` is
never assigned anywhere in the source, so the guard
`!this.previousViewport || …` (line 1225) is always true and the patching
body always runs.  When the new range overlaps the previous viewport only the
delta slices are added/destroyed (lines 1229-1248); otherwise the group is
emptied and rebuilt (lines 1249-1260). -/
def setViewport (o : GridOptions) (data : Int → Record) (range : RowRange)
    (s : GridState) : GridState :=
  let startB := o.frozenRowsTop
  let endB := s.recordCount - o.frozenRowsBottom
  let prev := s.viewport
  let s0 : GridState := { s with viewport := range }
  if overlap range prev then
    let s1 :=
      if range.rbegin < prev.rbegin then
        renderRowGroupContents o data (max startB range.rbegin)
          (min range.rend prev.rbegin) true none s0
      else if prev.rbegin < range.rbegin then
        { s0 with
          rows := s0.rows.drop (range.rbegin - prev.rbegin).toNat
          destroyed := s0.destroyed +
            min (range.rbegin - prev.rbegin).toNat s0.rows.length }
      else s0
    if range.rend < prev.rend ∧ prev.rbegin < range.rend then
      { s1 with
        rows := s1.rows.take (range.rend - range.rbegin).toNat
        destroyed := s1.destroyed +
          (s1.rows.length - min (range.rend - range.rbegin).toNat s1.rows.length) }
    else if prev.rend < range.rend then
      renderRowGroupContents o data (max prev.rend range.rbegin)
        (min range.rend endB) false none s1
    else s1
  else
    let s1 : GridState := { s0 with rows := [], destroyed := s0.destroyed + s0.rows.length }
    let sS := max startB range.rbegin
    let sE := min range.rend endB
    if sS < sE then renderRowGroupContents o data sS sE false none s1 else s1

/-- `PowerGrid._removeRows` (lines 893-959), the `rowsremoved` mutation
handler.  Throws "Index mismatch" when `end > recordCount || end < start`
(lines 894-896); the throw is propagated to the caller (the `rowsremoved`
listener at line 336 installs no handler).  Line 927 reads
`children.slice(start - this.viewport)`: subtracting the viewport object from
a number yields NaN, which `slice` coerces to 0, so the intended lower cut
`start - this.viewport.begin` is never applied and the destroyed slice always
starts at child position 0. -/
def removeRows (a b : Int) (s : GridState) : Except String GridState :=
  if s.recordCount < b ∨ b < a then .error "Index mismatch"
  else
    let s1 : GridState :=
      { s with
        recordCount := s.recordCount - (b - a)
        workingSet := fun i =>
          if i < a then s.workingSet i else s.workingSet (i + (b - a)) }
    if b ≤ s1.viewport.rbegin then
      -- deleted rows come before the viewport (lines 905-911)
      .ok { s1 with
            viewport := ⟨s1.viewport.rbegin - (b - a), s1.viewport.rend - (b - a)⟩
            rows := incrementRowIndexes a (a - b) s1.rows }
    else if s1.viewport.rbegin < b ∧ a < s1.viewport.rend then
      -- deleted block overlaps the viewport (lines 912-953)
      let hi : Nat :=
        if b < s1.viewport.rend then (b - s1.viewport.rbegin).toNat else s1.rows.length
      let lo : Nat := 0   -- line 927: slice(NaN) ≡ slice(0), see doc comment
      let remaining := s1.rows.take lo ++ s1.rows.drop hi
      let s2 : GridState :=
        { s1 with rows := remaining
                  destroyed := s1.destroyed + (s1.rows.length - remaining.length) }
      let s3 :=
        if b < s2.viewport.rend then
          { s2 with rows := incrementRowIndexes a (a - b) s2.rows }
        else s2
      let s4 :=
        if a < s3.viewport.rbegin then
          { s3 with viewport := ⟨a, s3.viewport.rend⟩ }
        else s3
      .ok
        (if s4.viewport.rend ≤ b then
          { s4 with viewport := ⟨s4.viewport.rbegin, max a s4.viewport.rbegin⟩ }
        else
          { s4 with viewport := ⟨s4.viewport.rbegin, s4.viewport.rend - (b - a)⟩ })
    else .ok s1

/-- `PowerGrid._addRows` (lines 1080-1156), the `rowsadded` mutation handler.
Throws "Index mismatch" when `start > recordCount` (lines 1081-1083).  The
result of `this.viewRange()` (line 1098) depends on the scroll position and is
passed in as `vr`. -/
def addRows (o : GridOptions) (data : Int → Record) (vr : RowRange) (a b : Int)
    (s : GridState) : Except String GridState :=
  if s.recordCount < a then .error "Index mismatch"
  else
    let s1 : GridState :=
      { s with
        recordCount := s.recordCount + (b - a)
        workingSet := fun i =>
          if i < a then s.workingSet i
          else if i < b then none
          else s.workingSet (i - (b - a)) }
    if s1.viewport.rbegin ≤ b ∧ a < s1.viewport.rend then
      -- new rows fall within the viewport (lines 1093-1142)
      let renderEnd := min (max vr.rend s1.viewport.rend) b
      let renderStart := max s1.viewport.rbegin a
      let renderCount := renderEnd - renderStart
      let s2 :=
        if renderEnd ≠ renderStart + (b - a) then
          -- non-contiguous insertion: destroy all rows from the insertion
          -- point on (lines 1110-1128)
          let k := (renderStart - s1.viewport.rbegin).toNat
          { s1 with
            rows := s1.rows.take k
            destroyed := s1.destroyed + (s1.rows.length - min k s1.rows.length)
            viewport := ⟨s1.viewport.rbegin, renderStart⟩ }
        else s1
      let s3 : GridState := { s2 with rows := incrementRowIndexes a (b - a) s2.rows }
      let s4 : GridState :=
        { s3 with viewport := ⟨s3.viewport.rbegin, s3.viewport.rend + renderCount⟩ }
      .ok
        (if renderEnd = s4.viewport.rend then
          renderRowGroupContents o data renderStart renderEnd false none s4
        else
          renderRowGroupContents o data renderStart renderEnd true
            (some (renderStart - s4.viewport.rbegin)) s4)
    else if b < s1.viewport.rbegin then
      -- new rows come before the viewport (lines 1143-1149)
      .ok { s1 with
            viewport := ⟨s1.viewport.rbegin + (b - a), s1.viewport.rend + (b - a)⟩
            rows := incrementRowIndexes a (b - a) s1.rows }
    else .ok s1

/-- `PowerGrid.updateViewportImmediate` (lines 1162-1205).  The minimal
visible range `rowsInView(...)` depends on the scroll position and is passed
in as `riv`.  Phase 1 (`renderExcess = false`) takes the union with the
current viewport when the excess-expanded target overlaps it, otherwise
replaces it; phase 2 (`renderExcess = true`) applies the excess-expanded
range directly. -/
def updateViewportImmediate (o : GridOptions) (data : Int → Record)
    (riv : RowRange) (renderExcess : Bool) (s : GridState) : GridState :=
  let startB := o.frozenRowsTop
  let endB := s.recordCount - o.frozenRowsBottom
  let rivE : RowRange :=
    ⟨max startB (riv.rbegin - o.virtualScrollingExcess),
     min endB (riv.rend + o.virtualScrollingExcess)⟩
  let range :=
    if renderExcess = false then
      if overlap s.viewport rivE then
        ⟨min riv.rbegin s.viewport.rbegin, max riv.rend s.viewport.rend⟩
      else riv
    else rivE
  setViewport o data range s

/-- `PowerGrid.renderData` (lines 583-617) with a synchronous record count:
stores the new record count, resets the working set, collapses the viewport
to `{begin: 0, end: 0}` and re-renders the frozen header/footer groups (whose
row nodes live in other groups, but whose `getData` calls populate the
working set). -/
def renderData (o : GridOptions) (data : Int → Record) (newCount : Int)
    (s : GridState) : GridState :=
  let s1 : GridState := { s with recordCount := newCount, workingSet := fun _ => none }
  let s2 := setViewport o data ⟨0, 0⟩ s1
  let ws3 :=
    if o.frozenRowsTop ≠ 0 then loadData data 0 o.frozenRowsTop s2.workingSet
    else s2.workingSet
  let ws4 :=
    if o.frozenRowsBottom ≠ 0 then
      loadData data (newCount - o.frozenRowsBottom) newCount ws3
    else ws3
  { s2 with workingSet := ws4 }

/-- Loop body of `PowerGrid.rowsInView` (lines 1572-1587):
`for (x = start; x < l; x++) { ct += rowHeight; if (ct >= top && begin == -1)
begin = x; else if (ct > bottom) break; }`.  The fuel is the number of
remaining iterations `l - x`; the result is the pair `(begin, x)` at loop
exit. -/
def rowsInViewLoop (rh top bottom : Int) :
    Nat → Int → Int → Int → Int × Int
  | 0, x, _, bg => (bg, x)
  | n + 1, x, ct, bg =>
    let ct2 := ct + rh
    if top ≤ ct2 ∧ bg = -1 then rowsInViewLoop rh top bottom n (x + 1) ct2 x
    else if bottom < ct2 then (bg, x)
    else rowsInViewLoop rh top bottom n (x + 1) ct2 bg

/-- `PowerGrid.rowsInView` (lines 1572-1587): the minimal index range of
`[a, l)` whose pixel extent intersects `[top, bottom]`, with `begin` adjusted
to preserve the odd/even parity of `frozenRowsTop`.  `end || getRecordCount()`
(line 1574) replaces a zero `l` argument by the record count.  Returns
`{begin: 0, end: 0}` when nothing intersects. -/
def rowsInView (o : GridOptions) (rc top bottom a l : Int) : RowRange :=
  let lim := if l = 0 then rc else l
  let res := rowsInViewLoop o.rowHeight top bottom (lim - a).toNat a 0 (-1)
  if -1 < res.1 then
    ⟨res.1 - (Int.tmod res.1 2 - Int.tmod o.frozenRowsTop 2), res.2⟩
  else ⟨0, 0⟩

/-- `PowerGrid.viewRange` (lines 965-978): the target materialized range for
scroll position `top` and scroll-area height `height` — the visible range
expanded by `virtualScrollingExcess` on both sides, clamped to
`[frozenRowsTop, recordCount - frozenRowsBottom]`, with `begin` then aligned
to an even index (line 974, `begin - (begin % 2)`). -/
def viewRange (o : GridOptions) (rc top height : Int) : RowRange :=
  let startB := o.frozenRowsTop
  let endB := rc - o.frozenRowsBottom
  let range := rowsInView o rc top (top + height) startB endB
  let bg := max startB (range.rbegin - o.virtualScrollingExcess)
  ⟨bg - Int.tmod bg 2, min endB (range.rend + o.virtualScrollingExcess)⟩

/-- Per-row checks of `PowerGrid.verify` (lines 2050-2063), walking the row
nodes of a scrolling-group part in order: the row at child position `r` must
have `data-row-idx == viewport.begin + r`, and when the working-set record at
that index is loaded and the row carries a `data-row-id` attribute, the two
identifiers must agree. -/
def rowsMatch (ws : Int → Option Record) : Int → List RowNode → Bool
  | _, [] => true
  | i, row :: rest =>
    (row.idx == i) &&
    (match ws i, row.rowId with
      | some rec, some tag => tag == rec.id
      | _, _ => true) &&
    rowsMatch ws (i + 1) rest

/-- `PowerGrid.verify` (lines 2039-2066), the debug-mode consistency check:
each scrolling-group part holds exactly `viewport.end - viewport.begin` row
nodes, their `data-row-idx` attributes are the contiguous ascending set
`[viewport.begin, viewport.end)`, and loaded rows carry the matching
`data-row-id`. -/
def verifyOk (s : GridState) : Bool :=
  ((s.rows.length : Int) == s.viewport.rend - s.viewport.rbegin) &&
  rowsMatch s.workingSet s.viewport.rbegin s.rows

/-- Modelled from the spec: the `SubscriptionQueue` of `utils.js` is not among
the sources.  Per the spec it "holds a generation counter, incremented by
`cancel()`"; `queue(callback)` wraps the callback capturing the current
generation, and on invocation "runs the wrapped callback only if the
generation is still current, otherwise the result is silently dropped". -/
structure SubscriptionQueue where
  generation : Nat
deriving DecidableEq

/-- Modelled from the spec: `cancel()` increments the generation counter,
invalidating every previously queued callback. -/
def SubscriptionQueue.cancel (q : SubscriptionQueue) : SubscriptionQueue :=
  ⟨q.generation + 1⟩

/-- A callback wrapped by `queue(callback)`: the generation it captured and
the state transformation it would apply to the grid when the asynchronous
result `α` arrives. -/
structure QueuedCallback (α σ : Type) where
  tag : Nat
  callback : α → σ → σ

/-- Modelled from the spec: `queue(callback)` wraps `callback` capturing the
queue's current generation. -/
def SubscriptionQueue.queue (q : SubscriptionQueue) (cb : α → σ → σ) :
    QueuedCallback α σ :=
  ⟨q.generation, cb⟩

/-- Modelled from the spec: invoking a wrapped callback when the asynchronous
result `a` arrives runs the underlying callback only if the captured
generation is still the queue's current one; a stale result leaves the state
untouched. -/
def invokeQueued (q : SubscriptionQueue) (w : QueuedCallback α σ) (a : α)
    (st : σ) : σ :=
  if w.tag = q.generation then w.callback a st else st

/-- `n` applications of `cancel` — at least one dataset reset
(`resetDataSubscriptions`, lines 572-577, calls `cancel()` on the live
queue). -/
def cancelN (n : Nat) (q : SubscriptionQueue) : SubscriptionQueue :=
  ⟨q.generation + n⟩

/-- A record of the summarized data source; identifiers are strings there
(`SUMMARY_ROW_ID = "summary_row"`). -/
structure SRecord where
  id : String
  payload : Int
deriving DecidableEq

/-- A ready synchronous delegate data source as seen by
`SummarizingDataSource`: a record count and a `getData(start, end)` function
(arguments may be `undefined`, modelled as `none`). -/
structure SDataSource where
  ready : Bool
  delegateCount : Int
  getData : Option Int → Option Int → List SRecord

/-- `SUMMARY_ROW_ID` (summarizingdatasource.js line 3). -/
def summaryRowId : String := "summary_row"

/-- `SummarizingDataSource.getSummaryRow` (lines 84-102) for the synchronous
case: the summary factory's record with its `id` overwritten by
`SUMMARY_ROW_ID`. -/
def getSummaryRow (factory : Unit → SRecord) : SRecord :=
  { factory () with id := summaryRowId }

/-- `SummarizingDataSource.recordCount` (lines 34-38): the delegate's record
count plus one.  `utils.map` (utils.js, not among the sources) applies the
function directly to a synchronous value. -/
def summarizingRecordCount (d : SDataSource) : Int :=
  d.delegateCount + 1

/-- `SummarizingDataSource.getData` (lines 40-66) for the synchronous case:
a fetch starting exactly at the delegate's record count yields just the
summary row; a fetch with no bounds or reaching past the delegate's record
count appends the summary row to the delegate's data; any other fetch is
passed through. -/
def summarizingGetData (d : SDataSource) (factory : Unit → SRecord)
    (a b : Option Int) : List SRecord :=
  let rc := d.delegateCount
  if a = some rc then [getSummaryRow factory]
  else if (a = none ∧ b = none) ∨ (∃ e, b = some e ∧ rc < e) then
    d.getData a b ++ [getSummaryRow factory]
  else d.getData a b

/-- A synchronous data source response: the record at index `i` has
identifier `i`. -/
def idRecords : Int → Record := fun i => ⟨i⟩

/-- `n` populated row nodes for the contiguous index range starting at
`bg`, with matching identifiers. -/
def mkRows (bg : Int) (n : Nat) : List RowNode :=
  (List.range n).map fun (k : Nat) => ⟨bg + (k : Int), some (bg + (k : Int)), true⟩

/-- A working set with records loaded exactly for `[a, b)`. -/
def wsLoaded (a b : Int) : Int → Option Record :=
  fun i => if a ≤ i ∧ i < b then some ⟨i⟩ else none

/-- Scenario state for claim C1: 100 records, viewport `{40, 60}`, all 20
viewport rows materialized and loaded. -/
def gridC1 : GridState :=
  ⟨100, ⟨40, 60⟩, wsLoaded 40 60, mkRows 40 20, 0, 0⟩

/-- Scenario state for claim C2 (same shape as `gridC1`, separate fixture). -/
def gridC2 : GridState :=
  ⟨100, ⟨40, 60⟩, wsLoaded 40 60, mkRows 40 20, 0, 0⟩

/-- Scenario state for claim C3's witness. -/
def gridC3 : GridState :=
  ⟨100, ⟨40, 60⟩, wsLoaded 40 60, mkRows 40 20, 0, 0⟩

/-- Options for claim C4's scenario: no frozen rows, no excess margin. -/
def optC4 : GridOptions := ⟨0, 0, 0, 31⟩

/-- Scenario state for claim C4: viewport `{20, 60}`, all 40 viewport rows
materialized and loaded. -/
def gridC4 : GridState :=
  ⟨100, ⟨20, 60⟩, wsLoaded 20 60, mkRows 20 40, 0, 0⟩

/-- Claim C4, phase 1: the scroll event's minimal visible range is
`{30, 70}`. -/
def phase1C4 : GridState := updateViewportImmediate optC4 idRecords ⟨30, 70⟩ false gridC4

/-- Claim C4, phase 2: the deferred excess recompute for the same visible
range. -/
def phase2C4 : GridState := updateViewportImmediate optC4 idRecords ⟨30, 70⟩ true phase1C4

/-- Options for claim C4's counterexample: excess margin 10. -/
def optC4cx : GridOptions := ⟨0, 0, 10, 31⟩

/-- State for claim C4's counterexample: viewport `{0, 10}`, all 10 viewport
rows materialized and loaded. -/
def gridC4cx : GridState :=
  ⟨100, ⟨0, 10⟩, wsLoaded 0 10, mkRows 0 10, 0, 0⟩

/-- State for claim C8's witness: viewport `{12, 16}`, no rows materialized
yet. -/
def gridC8w : GridState :=
  ⟨100, ⟨12, 16⟩, wsLoaded 12 16, mkRows 12 4, 0, 0⟩

/-- Whether the scan of `rowsInView` found a row intersecting the view
(`begin > -1`, line 1582). -/
def rowsInViewFound (o : GridOptions) (rc top bottom a l : Int) : Bool :=
  let lim := if l = 0 then rc else l
  let res := rowsInViewLoop o.rowHeight top bottom (lim - a).toNat a 0 (-1)
  decide ((-1 : Int) < res.1)

/-- Options for claim C9's counterexample: one frozen top row (odd parity),
no excess. -/
def optC9 : GridOptions := ⟨1, 0, 0, 31⟩

/-- Options for claim C9's witness: two frozen top rows, one frozen bottom
row, excess margin 3. -/
def optC9w : GridOptions := ⟨2, 1, 3, 31⟩

/-- Concrete wrapped-callback body for claim C7's witness. -/
def addCallback : Nat → Nat → Nat := fun a st => st + a

/-- Concrete ready delegate for claim C10's witness: two records. -/
def delegateC10 : SDataSource :=
  ⟨true, 2,
   fun a b =>
     (([⟨"r0", 0⟩, ⟨"r1", 1⟩] : List SRecord).drop (a.getD 0).toNat).take
       ((b.getD 2) - a.getD 0).toNat⟩

/-- Concrete summary factory for claim C10's witness. -/
def summaryC10 : Unit → SRecord := fun _ => ⟨"tmp", 99⟩

theorem rowsMatch_le_idx {ws : Int → Option Record} :
    ∀ {i : Int} {l : List RowNode}, rowsMatch ws i l = true → ∀ r ∈ l, i ≤ r.idx := by
  intro i l
  induction l generalizing i with
  | nil => intro _ r hr; cases hr
  | cons hd tl ih =>
    intro h r hr
    rw [rowsMatch, Bool.and_eq_true, Bool.and_eq_true] at h
    obtain ⟨⟨hidx, -⟩, htl⟩ := h
    rw [List.mem_cons] at hr
    rcases hr with rfl | hr
    · exact le_of_eq (beq_iff_eq.mp hidx).symm
    · have := ih htl r hr
      omega

/-- Claim C1: the global invariant — the scrolling group materializes exactly
`viewport.end - viewport.begin` row nodes, their `data-row-idx` tags form the
contiguous ascending set `[viewport.begin, viewport.end)`, and loaded rows
carry the matching `data-row-id` — is claimed to be preserved by every
operation.  The code violates it: from the valid state `gridC1` the in-range
mutation `_removeRows(45, 70)` leaves a state failing the engine's own
`verify` check, because line 927 slices the doomed children from
`start - this.viewport` (NaN, coerced to 0) instead of
`start - this.viewport.begin`, destroying all 20 nodes while the viewport
retains 5 indices. -/
theorem removeRows_breaks_verify_invariant :
    verifyOk gridC1 = true ∧
      (removeRows 45 70 gridC1).toOption.map verifyOk = some false := by
  decide

/-- Claim C2: with viewport `{40, 60}`, the mutation `rowsremoved [45, 70)`
is claimed to destroy exactly 15 nodes.  The code instead destroys all 20
materialized nodes — line 927's `slice(start - this.viewport)` evaluates to
`slice(NaN)` ≡ `slice(0)`, contradicting the length assertion at line 930 —
while the viewport does end at `{40, 45}` as claimed. -/
theorem removeRows_overlap_destroys_all :
    (removeRows 45 70 gridC2).toOption.map
        (fun t => (t.viewport, t.destroyed, t.rows.length)) =
      some (⟨40, 45⟩, 20, 0) := by
  decide

/-- Claim C3: deleting rows `[10, 20)`, entirely before viewport `{40, 60}`,
with `recordCount = 100`, shifts the viewport to `{30, 50}`, decreases every
materialized `data-row-idx` tag by 10 and destroys zero nodes. -/
theorem removeRows_before_viewport_shifts (s : GridState)
    (hv : verifyOk s = true) (hrc : s.recordCount = 100)
    (hvp : s.viewport = ⟨40, 60⟩) :
    (removeRows 10 20 s).toOption.map
        (fun t => (t.viewport, t.rows, t.destroyed)) =
      some (⟨30, 50⟩, s.rows.map (fun r => { r with idx := r.idx - 10 }),
        s.destroyed) := by
  have h2 : rowsMatch s.workingSet s.viewport.rbegin s.rows = true := by
    rw [verifyOk, Bool.and_eq_true] at hv
    exact hv.2
  have hge : ∀ r ∈ s.rows, (10 : Int) ≤ r.idx := by
    intro r hr
    have h3 := rowsMatch_le_idx h2 r hr
    rw [hvp] at h3
    dsimp only at h3
    omega
  obtain ⟨rc, vp, ws, rows, cr, de⟩ := s
  dsimp only at hrc hvp hge ⊢
  subst hrc
  subst hvp
  have hstep : removeRows 10 20 (⟨100, ⟨40, 60⟩, ws, rows, cr, de⟩ : GridState) =
      .ok ⟨90, ⟨30, 50⟩, fun i => if i < 10 then ws i else ws (i + 10),
        incrementRowIndexes 10 (-10) rows, cr, de⟩ := rfl
  have heq : incrementRowIndexes 10 (-10) rows =
      rows.map (fun r => { r with idx := r.idx - 10 }) := by
    rw [incrementRowIndexes]
    refine List.map_congr_left ?_
    intro r hr
    rw [if_pos (hge r hr)]
    have h4 : r.idx + (-10) = r.idx - 10 := by omega
    rw [h4]
  rw [hstep]
  rw [show (Except.toOption (ε := String) (.ok (⟨90, ⟨30, 50⟩,
      fun i => if i < 10 then ws i else ws (i + 10),
      incrementRowIndexes 10 (-10) rows, cr, de⟩ : GridState))) =
      some ⟨90, ⟨30, 50⟩, fun i => if i < 10 then ws i else ws (i + 10),
      incrementRowIndexes 10 (-10) rows, cr, de⟩ from rfl]
  rw [Option.map_some']
  dsimp only
  rw [heq]

/-- Witness for claim C3 at the concrete state `gridC3`. -/
theorem removeRows_before_viewport_shifts_witness :
    (removeRows 10 20 gridC3).toOption.map
        (fun t => (t.viewport, t.rows, t.destroyed)) =
      some (⟨30, 50⟩, gridC3.rows.map (fun r => { r with idx := r.idx - 10 }),
        gridC3.destroyed) :=
  removeRows_before_viewport_shifts gridC3 (by decide) (by decide) (by decide)

theorem setViewport_viewport_eq (o : GridOptions) (data : Int → Record)
    (r : RowRange) (s : GridState) : (setViewport o data r s).viewport = r := by
  rw [setViewport]
  dsimp only
  repeat' split
  all_goals rfl

theorem setViewport_rows_nil_of_degenerate (o : GridOptions) (data : Int → Record)
    (r : RowRange) (s : GridState) (h : r.rend ≤ r.rbegin) :
    (setViewport o data r s).rows = [] := by
  rw [setViewport]
  dsimp only
  rw [if_neg (by
    simp only [overlap, decide_eq_true_eq, not_lt]
    exact (min_le_left _ _).trans (h.trans (le_max_left _ _)))]
  rw [if_neg (by
    simp only [not_lt]
    exact (min_le_left _ _).trans (h.trans (le_max_right _ _)))]

/-- Claim C5: `setViewport` is idempotent with respect to node churn: for
every range `r`, a second `setViewport(r)` immediately after `setViewport(r)`
creates zero new row nodes and destroys zero existing ones. -/
theorem setViewport_idempotent_churn (o : GridOptions) (data : Int → Record)
    (r : RowRange) (s : GridState) :
    (setViewport o data r (setViewport o data r s)).created =
        (setViewport o data r s).created ∧
      (setViewport o data r (setViewport o data r s)).destroyed =
        (setViewport o data r s).destroyed := by
  by_cases h : r.rbegin < r.rend
  · have hvp := setViewport_viewport_eq o data r s
    revert hvp
    generalize setViewport o data r s = s1
    intro hvp
    have hov : overlap r r = true := by
      simp only [overlap, max_self, min_self, decide_eq_true_eq]
      exact h
    constructor
    · rw [setViewport]
      dsimp only
      rw [hvp]
      rw [if_pos hov]
      simp only [lt_self_iff_false, if_false, false_and, ite_false]
    · rw [setViewport]
      dsimp only
      rw [hvp]
      rw [if_pos hov]
      simp only [lt_self_iff_false, if_false, false_and, ite_false]
  · have hnil := setViewport_rows_nil_of_degenerate o data r s (le_of_not_lt h)
    have hvp := setViewport_viewport_eq o data r s
    revert hvp hnil
    generalize setViewport o data r s = s1
    intro hnil hvp
    have hov : ¬ (overlap r s1.viewport = true) := by
      rw [hvp]
      simp only [overlap, max_self, min_self, decide_eq_true_eq, not_lt]
      exact le_of_not_lt h
    have hrender : ¬ (max o.frozenRowsTop r.rbegin <
        min r.rend (s1.recordCount - o.frozenRowsBottom)) := by
      simp only [not_lt]
      exact (min_le_left _ _).trans ((le_of_not_lt h).trans (le_max_right _ _))
    constructor
    · rw [setViewport]
      dsimp only
      rw [if_neg hov, if_neg hrender]
    · rw [setViewport]
      dsimp only
      rw [if_neg hov, if_neg hrender]
      simp only [hnil, List.length_nil, Nat.add_zero]

/-- Claim C6: the mutation handlers enforce their preconditions by throwing:
a `rowsremoved` mutation errors exactly when `end > recordCount` or
`end < start` (lines 894-896), a `rowsadded` mutation exactly when
`start > recordCount` (lines 1081-1083), and every in-range mutation
succeeds.  The throw is modelled as the `Except.error` result, which nothing
in the handlers catches — the `rowsremoved`/`rowsadded` listeners (lines
336-357) install no recovery, so it propagates to the caller. -/
theorem mutation_preconditions :
    (∀ (a b : Int) (s : GridState),
        (removeRows a b s).isOk = true ↔ b ≤ s.recordCount ∧ a ≤ b) ∧
      ∀ (o : GridOptions) (data : Int → Record) (vr : RowRange) (a b : Int)
        (s : GridState),
        (addRows o data vr a b s).isOk = true ↔ a ≤ s.recordCount := by
  constructor
  · intro a b s
    rw [removeRows]
    by_cases hc : s.recordCount < b ∨ b < a
    · rw [if_pos hc]
      simp only [Except.isOk, Except.toBool, Bool.false_eq_true, false_iff]
      omega
    · rw [if_neg hc]
      dsimp only
      constructor
      · intro _
        omega
      · intro _
        repeat' split
        all_goals rfl
  · intro o data vr a b s
    rw [addRows]
    by_cases hc : s.recordCount < a
    · rw [if_pos hc]
      simp only [Except.isOk, Except.toBool, Bool.false_eq_true, false_iff]
      omega
    · rw [if_neg hc]
      dsimp only
      constructor
      · intro _
        omega
      · intro _
        repeat' split
        all_goals rfl

/-- Claim C7: for every callback queued through the Data Subscription Queue,
if `cancel()` (at least one dataset reset via `resetDataSubscriptions`,
lines 572-577) occurs before the asynchronous result arrives, the wrapped
callback never executes — the stale result is dropped and the state is left
untouched. -/
theorem queued_callback_dropped_after_cancel {α σ : Type}
    (q : SubscriptionQueue) (n : Nat) (hn : 1 ≤ n) (cb : α → σ → σ)
    (a : α) (st : σ) :
    invokeQueued (cancelN n q) (q.queue cb) a st = st := by
  rw [invokeQueued, SubscriptionQueue.queue, cancelN]
  dsimp only
  rw [if_neg (by omega)]

/-- Witness for claim C7: one cancel between queueing and arrival drops the
result. -/
theorem queued_callback_dropped_after_cancel_witness :
    invokeQueued (cancelN 1 ⟨0⟩) (SubscriptionQueue.queue ⟨0⟩ addCallback) 5 3 = 3 :=
  queued_callback_dropped_after_cancel ⟨0⟩ 1 (by decide) addCallback 5 3

/-- Claim C10: for every ready delegate, `SummarizingDataSource.recordCount`
is the delegate's record count plus one, and the appended summary row
occupies the final index of the summarized dataset: a fetch starting at the
delegate's count yields exactly the summary row, and a full fetch
`[0, count + 1)` yields the delegate's data with the summary row at index
`count`. -/
theorem summarizing_count_and_final_summary (d : SDataSource)
    (f : Unit → SRecord) (hready : d.ready = true)
    (hnn : 0 ≤ d.delegateCount)
    (hlen : (d.getData (some 0) (some (d.delegateCount + 1))).length =
      d.delegateCount.toNat) :
    summarizingRecordCount d = d.delegateCount + 1 ∧
      summarizingGetData d f (some d.delegateCount) none = [getSummaryRow f] ∧
      (summarizingGetData d f (some 0) (some (d.delegateCount + 1))).length =
        d.delegateCount.toNat + 1 ∧
      (summarizingGetData d f (some 0)
          (some (d.delegateCount + 1)))[d.delegateCount.toNat]? =
        some (getSummaryRow f) := by
  refine ⟨rfl, ?_, ?_, ?_⟩
  · rw [summarizingGetData]
    rw [if_pos rfl]
  · rw [summarizingGetData]
    by_cases h0 : d.delegateCount = 0
    · rw [if_pos (by rw [h0])]
      simp [h0]
    · rw [if_neg (by simp only [Option.some.injEq]; omega)]
      rw [if_pos (Or.inr ⟨d.delegateCount + 1, rfl, by omega⟩)]
      rw [List.length_append, hlen]
      rfl
  · rw [summarizingGetData]
    by_cases h0 : d.delegateCount = 0
    · rw [if_pos (by rw [h0])]
      have hl0 : d.delegateCount.toNat = 0 := by omega
      rw [hl0]
      rfl
    · rw [if_neg (by simp only [Option.some.injEq]; omega)]
      rw [if_pos (Or.inr ⟨d.delegateCount + 1, rfl, by omega⟩)]
      rw [← hlen]
      exact List.getElem?_concat_length _ _

/-- Witness for claim C10 at the concrete two-record delegate. -/
theorem summarizing_count_and_final_summary_witness :
    summarizingRecordCount delegateC10 = delegateC10.delegateCount + 1 ∧
      summarizingGetData delegateC10 summaryC10 (some delegateC10.delegateCount)
          none = [getSummaryRow summaryC10] ∧
      (summarizingGetData delegateC10 summaryC10 (some 0)
          (some (delegateC10.delegateCount + 1))).length =
        delegateC10.delegateCount.toNat + 1 ∧
      (summarizingGetData delegateC10 summaryC10 (some 0)
          (some (delegateC10.delegateCount + 1)))[delegateC10.delegateCount.toNat]? =
        some (getSummaryRow summaryC10) :=
  summarizing_count_and_final_summary delegateC10 summaryC10 (by decide)
    (by decide) (by decide)

theorem setViewport_superset_destroyed (o : GridOptions) (data : Int → Record)
    (range : RowRange) (s : GridState)
    (hb : range.rbegin ≤ s.viewport.rbegin) (he : s.viewport.rend ≤ range.rend)
    (hne : s.viewport.rbegin < s.viewport.rend) :
    (setViewport o data range s).destroyed = s.destroyed := by
  rw [setViewport]
  dsimp only
  rw [if_pos (by
    simp only [overlap, decide_eq_true_eq]
    rw [max_eq_right hb, min_eq_right he]
    exact hne)]
  rw [if_neg (by
    rintro ⟨h1, -⟩
    omega)]
  repeat' split
  all_goals try rfl
  all_goals omega

/-- Claim C4 (amended): the viewport update is two-phase, but phase 1 decides
between union and replacement by testing the overlap of the
*excess-expanded* visible range against the current viewport (line 1181),
not of the minimal visible range itself: when the expanded range overlaps,
the new viewport is the union of the *minimal* visible range with the old
viewport and no rows are removed; when even the expanded range is disjoint,
the minimal visible range replaces the viewport outright.  Phase 2 sets the
viewport to exactly the excess-expanded visible range.  Concretely, from
viewport `{20, 60}` with minimal visible range `{30, 70}` (zero excess):
phase 1 yields `{20, 70}` with zero removals, phase 2 yields exactly
`{30, 70}` with rows `[20, 30)` removed and none added. -/
theorem updateViewport_two_phase :
    (∀ (o : GridOptions) (data : Int → Record) (riv : RowRange) (s : GridState),
        overlap s.viewport
            ⟨max o.frozenRowsTop (riv.rbegin - o.virtualScrollingExcess),
             min (s.recordCount - o.frozenRowsBottom)
               (riv.rend + o.virtualScrollingExcess)⟩ = true →
          (updateViewportImmediate o data riv false s).viewport =
              ⟨min riv.rbegin s.viewport.rbegin, max riv.rend s.viewport.rend⟩ ∧
            (updateViewportImmediate o data riv false s).destroyed = s.destroyed) ∧
    (∀ (o : GridOptions) (data : Int → Record) (riv : RowRange) (s : GridState),
        overlap s.viewport
            ⟨max o.frozenRowsTop (riv.rbegin - o.virtualScrollingExcess),
             min (s.recordCount - o.frozenRowsBottom)
               (riv.rend + o.virtualScrollingExcess)⟩ = false →
          (updateViewportImmediate o data riv false s).viewport = riv) ∧
    (∀ (o : GridOptions) (data : Int → Record) (riv : RowRange) (s : GridState),
        (updateViewportImmediate o data riv true s).viewport =
          ⟨max o.frozenRowsTop (riv.rbegin - o.virtualScrollingExcess),
           min (s.recordCount - o.frozenRowsBottom)
             (riv.rend + o.virtualScrollingExcess)⟩) ∧
    (phase1C4.viewport = ⟨20, 70⟩ ∧ phase1C4.destroyed = gridC4.destroyed ∧
      phase2C4.viewport = ⟨30, 70⟩ ∧ phase2C4.destroyed = phase1C4.destroyed + 10 ∧
      phase2C4.created = phase1C4.created ∧
      phase2C4.rows = phase1C4.rows.drop 10 ∧
      (phase1C4.rows.take 10).map RowNode.idx =
        (List.range 10).map (fun k => (20 + (k : Int)))) := by
  refine ⟨?_, ?_, ?_, by decide⟩
  · intro o data riv s hov
    have hne : s.viewport.rbegin < s.viewport.rend := by
      have h1 := (decide_eq_true_eq.mp (by simpa only [overlap] using hov))
      calc s.viewport.rbegin ≤ _ := le_max_left _ _
        _ < _ := h1
        _ ≤ s.viewport.rend := min_le_left _ _
    constructor
    · rw [updateViewportImmediate]
      rw [if_pos rfl, if_pos hov]
      exact setViewport_viewport_eq o data _ s
    · rw [updateViewportImmediate]
      rw [if_pos rfl, if_pos hov]
      exact setViewport_superset_destroyed o data _ s (min_le_right _ _)
        (le_max_right _ _) hne
  · intro o data riv s hov
    rw [updateViewportImmediate]
    rw [if_pos rfl, if_neg (by rw [hov]; exact Bool.false_ne_true)]
    exact setViewport_viewport_eq o data _ s
  · intro o data riv s
    rw [updateViewportImmediate]
    rw [if_neg (by decide)]
    exact setViewport_viewport_eq o data _ s

/-- Counterexample to claim C4 as stated: with viewport `{0, 10}`, minimal
visible range `{15, 20}` (disjoint from the viewport) and excess margin 10,
the claim's "if disjoint it replaces the viewport" predicts `{15, 20}`, but
the code tests the *expanded* range `{5, 30}` (which overlaps) and takes the
union `{0, 20}`. -/
theorem updateViewport_disjoint_takes_union :
    gridC4cx.viewport.rend ≤ 15 ∧
      (updateViewportImmediate optC4cx idRecords ⟨15, 20⟩ false gridC4cx).viewport
        ≠ ⟨15, 20⟩ ∧
      (updateViewportImmediate optC4cx idRecords ⟨15, 20⟩ false gridC4cx).viewport
        = ⟨0, 20⟩ := by
  decide

/-- Witness for claim C4's amended theorem: the union conjunct applied at the
scenario-D inputs, with the overlap hypothesis discharged. -/
theorem updateViewport_two_phase_witness :
    (updateViewportImmediate optC4 idRecords ⟨30, 70⟩ false gridC4).viewport =
        ⟨min (30 : Int) gridC4.viewport.rbegin, max (70 : Int) gridC4.viewport.rend⟩ ∧
      (updateViewportImmediate optC4 idRecords ⟨30, 70⟩ false gridC4).destroyed =
        gridC4.destroyed :=
  updateViewport_two_phase.1 optC4 idRecords ⟨30, 70⟩ gridC4 (by decide)

/-- Claim C8: when `renderRowGroupContents` materializes row shells for
`[a, b)` in the scrolling group, only the sub-range intersecting the live
viewport — from `max(a, viewport.begin)` to `min(b, viewport.end)` — is
populated with cell content and given a `data-row-id` tag immediately; shells
outside that intersection remain empty, while ranges lying within the frozen
header/footer bands are populated in full (condition of line 814-815). -/
theorem renderRowGroupContents_lazy_population
    (o : GridOptions) (data : Int → Record) (a b : Int) (s : GridState) :
    (renderRowGroupContents o data a b false none s).rows =
        s.rows ++ builtRows o data s.recordCount s.viewport a b ∧
      (¬ (b ≤ o.frozenRowsTop ∨ s.recordCount - o.frozenRowsBottom ≤ a) →
        ∀ x : Int, a ≤ x → x < b →
          (builtRows o data s.recordCount s.viewport a b)[(x - a).toNat]? =
            some
              (if max a s.viewport.rbegin ≤ x ∧ x < min b s.viewport.rend then
                ⟨x, some (data x).id, true⟩
              else ⟨x, none, false⟩)) ∧
      ((b ≤ o.frozenRowsTop ∨ s.recordCount - o.frozenRowsBottom ≤ a) →
        ∀ x : Int, a ≤ x → x < b →
          (builtRows o data s.recordCount s.viewport a b)[(x - a).toNat]? =
            some ⟨x, some (data x).id, true⟩) := by
  refine ⟨rfl, ?_, ?_⟩
  · intro h x hax hxb
    rw [builtRows]
    dsimp only
    rw [if_neg h, if_neg h]
    rw [List.getElem?_map, List.getElem?_range (by omega)]
    rw [Option.map_some']
    have hx : a + ((x - a).toNat : Int) = x := by omega
    rw [hx]
  · intro h x hax hxb
    rw [builtRows]
    dsimp only
    rw [if_pos h, if_pos h]
    rw [List.getElem?_map, List.getElem?_range (by omega)]
    rw [Option.map_some']
    have hx : a + ((x - a).toNat : Int) = x := by omega
    rw [hx]
    rw [if_pos ⟨hax, hxb⟩]

/-- Witness for claim C8: rendering `[10, 20)` with viewport `{12, 16}` in a
100-record grid with no frozen rows; the shell for index 13 is populated,
the shell for index 18 stays empty. -/
theorem renderRowGroupContents_lazy_population_witness :
    (renderRowGroupContents optC4 idRecords 10 20 false none gridC8w).rows =
        gridC8w.rows ++ builtRows optC4 idRecords gridC8w.recordCount
          gridC8w.viewport 10 20 ∧
      (builtRows optC4 idRecords gridC8w.recordCount gridC8w.viewport 10 20)[
          ((13 : Int) - 10).toNat]? =
        some (if max (10 : Int) gridC8w.viewport.rbegin ≤ 13 ∧
            (13 : Int) < min 20 gridC8w.viewport.rend then
          ⟨13, some (idRecords 13).id, true⟩
        else ⟨13, none, false⟩) ∧
      (builtRows optC4 idRecords gridC8w.recordCount gridC8w.viewport 10 20)[
          ((18 : Int) - 10).toNat]? =
        some (if max (10 : Int) gridC8w.viewport.rbegin ≤ 18 ∧
            (18 : Int) < min 20 gridC8w.viewport.rend then
          ⟨18, some (idRecords 18).id, true⟩
        else ⟨18, none, false⟩) :=
  ⟨(renderRowGroupContents_lazy_population optC4 idRecords 10 20 gridC8w).1,
   (renderRowGroupContents_lazy_population optC4 idRecords 10 20 gridC8w).2.1
     (by decide) 13 (by decide) (by decide),
   (renderRowGroupContents_lazy_population optC4 idRecords 10 20 gridC8w).2.1
     (by decide) 18 (by decide) (by decide)⟩

theorem rowsInViewLoop_set (rh top bottom : Int) :
    ∀ (n : Nat) (x ct b0 : Int), b0 ≠ -1 →
      (rowsInViewLoop rh top bottom n x ct b0).1 = b0 ∧
        x ≤ (rowsInViewLoop rh top bottom n x ct b0).2 ∧
        (rowsInViewLoop rh top bottom n x ct b0).2 ≤ x + n := by
  intro n
  induction n with
  | zero =>
    intro x ct b0 hb
    rw [rowsInViewLoop]
    exact ⟨rfl, le_refl x, by omega⟩
  | succ m ih =>
    intro x ct b0 hb
    rw [rowsInViewLoop]
    by_cases h1 : top ≤ ct + rh ∧ b0 = -1
    · exact absurd h1.2 hb
    · rw [if_neg h1]
      by_cases h2 : bottom < ct + rh
      · rw [if_pos h2]
        exact ⟨rfl, le_refl x, by omega⟩
      · rw [if_neg h2]
        have h3 := ih (x + 1) (ct + rh) b0 hb
        exact ⟨h3.1, by omega, by omega⟩

theorem rowsInViewLoop_found (rh top bottom : Int) :
    ∀ (n : Nat) (x ct : Int), 0 ≤ x →
      (rowsInViewLoop rh top bottom n x ct (-1)).1 ≠ -1 →
      x ≤ (rowsInViewLoop rh top bottom n x ct (-1)).1 ∧
        (rowsInViewLoop rh top bottom n x ct (-1)).1 <
          (rowsInViewLoop rh top bottom n x ct (-1)).2 ∧
        (rowsInViewLoop rh top bottom n x ct (-1)).2 ≤ x + n := by
  intro n
  induction n with
  | zero =>
    intro x ct hx hne
    rw [rowsInViewLoop] at hne
    exact absurd rfl hne
  | succ m ih =>
    intro x ct hx hne
    rw [rowsInViewLoop] at hne ⊢
    by_cases h1 : top ≤ ct + rh ∧ (-1 : Int) = -1
    · rw [if_pos h1] at hne ⊢
      have hset := rowsInViewLoop_set rh top bottom m (x + 1) (ct + rh) x (by omega)
      refine ⟨le_of_eq hset.1.symm, ?_, by omega⟩
      rw [hset.1]
      omega
    · rw [if_neg h1] at hne ⊢
      by_cases h2 : bottom < ct + rh
      · rw [if_pos h2] at hne
        exact absurd rfl hne
      · rw [if_neg h2] at hne ⊢
        have h3 := ih (x + 1) (ct + rh) (by omega) hne
        exact ⟨by omega, h3.2.1, by omega⟩

theorem tmod_two_nonneg_eq (a : Int) (h : 0 ≤ a) : Int.tmod a 2 = a % 2 :=
  Int.tmod_eq_emod h (by norm_num)

/-- Claim C9 (amended): whenever the visible-range scan finds an intersecting
row (and the configuration is non-degenerate: non-negative `frozenRowsTop`
and excess, `recordCount ≠ frozenRowsBottom`), the range computed by
`viewRange` satisfies
`frozenRowsTop - frozenRowsTop % 2 ≤ begin ≤ end ≤ recordCount - frozenRowsBottom`.
The lower bound is the claimed `frozenRowsTop ≤ begin` weakened by one: the
even-parity alignment of line 974 (`begin - begin % 2`) can take `begin` one
index below `frozenRowsTop` when `frozenRowsTop` is odd. -/
theorem viewRange_bounds (o : GridOptions) (rc top height : Int)
    (hft : 0 ≤ o.frozenRowsTop) (hex : 0 ≤ o.virtualScrollingExcess)
    (hend : rc - o.frozenRowsBottom ≠ 0)
    (hfound : rowsInViewFound o rc top (top + height) o.frozenRowsTop
        (rc - o.frozenRowsBottom) = true) :
    o.frozenRowsTop - Int.tmod o.frozenRowsTop 2 ≤ (viewRange o rc top height).rbegin ∧
      (viewRange o rc top height).rbegin ≤ (viewRange o rc top height).rend ∧
      (viewRange o rc top height).rend ≤ rc - o.frozenRowsBottom := by
  rw [rowsInViewFound] at hfound
  rw [if_neg hend] at hfound
  rw [decide_eq_true_eq] at hfound
  have hne : (rowsInViewLoop o.rowHeight top (top + height)
      ((rc - o.frozenRowsBottom) - o.frozenRowsTop).toNat o.frozenRowsTop 0 (-1)).1 ≠ -1 := by
    omega
  have hf := rowsInViewLoop_found o.rowHeight top (top + height)
    ((rc - o.frozenRowsBottom) - o.frozenRowsTop).toNat o.frozenRowsTop 0 hft hne
  rw [viewRange]
  rw [rowsInView]
  rw [if_neg hend]
  dsimp only
  rw [if_pos hfound]
  dsimp only
  set A := (rowsInViewLoop o.rowHeight top (top + height)
      ((rc - o.frozenRowsBottom) - o.frozenRowsTop).toNat o.frozenRowsTop 0 (-1)).1 with hA
  set E := (rowsInViewLoop o.rowHeight top (top + height)
      ((rc - o.frozenRowsBottom) - o.frozenRowsTop).toNat o.frozenRowsTop 0 (-1)).2 with hE
  obtain ⟨hfb, hbe, hel⟩ := hf
  have hA0 : 0 ≤ A := le_trans hft hfb
  have hEl : E ≤ rc - o.frozenRowsBottom := by omega
  rw [tmod_two_nonneg_eq A hA0, tmod_two_nonneg_eq o.frozenRowsTop hft]
  set ab := A - (A % 2 - o.frozenRowsTop % 2) with hab
  have hab_ge : o.frozenRowsTop ≤ ab := by omega
  have hab_le : ab ≤ E := by omega
  set bg := max o.frozenRowsTop (ab - o.virtualScrollingExcess) with hbg
  have hbg_ge : o.frozenRowsTop ≤ bg := le_max_left _ _
  have hbg_le : bg ≤ ab := max_le hab_ge (by omega)
  have hbg0 : 0 ≤ bg := le_trans hft hbg_ge
  rw [tmod_two_nonneg_eq bg hbg0]
  have hrend_le : min (rc - o.frozenRowsBottom) (E + o.virtualScrollingExcess) ≤
      rc - o.frozenRowsBottom := min_le_left _ _
  have hrend_ge : E ≤ min (rc - o.frozenRowsBottom) (E + o.virtualScrollingExcess) :=
    le_min hEl (by omega)
  refine ⟨by omega, by omega, by omega⟩

/-- Counterexample to claim C9 as stated: with one frozen top row (odd
parity), 10 records, scroll position 0 and a 31-pixel-high view, `viewRange`
returns `{0, 2}` — its `begin` lies below `frozenRowsTop = 1`, because line
974 aligns `begin` to an even index regardless of the frozen-top parity. -/
theorem viewRange_begin_below_frozenTop :
    ¬ (optC9.frozenRowsTop ≤ (viewRange optC9 10 0 31).rbegin) ∧
      viewRange optC9 10 0 31 = ⟨0, 2⟩ := by
  decide

/-- Witness for claim C9's amended bounds at a concrete even-parity
configuration. -/
theorem viewRange_bounds_witness :
    optC9w.frozenRowsTop - Int.tmod optC9w.frozenRowsTop 2 ≤
        (viewRange optC9w 20 100 62).rbegin ∧
      (viewRange optC9w 20 100 62).rbegin ≤ (viewRange optC9w 20 100 62).rend ∧
      (viewRange optC9w 20 100 62).rend ≤ 20 - optC9w.frozenRowsBottom :=
  viewRange_bounds optC9w 20 100 62 (by decide) (by decide) (by decide) (by decide)
